import Mathlib

/-!
Verification of the network primitive layer of `my-little-traceroute`
(Go package `internal/network`): the ICMP decoder (`ParseICMPMessage`,
`parseTimeExceededMessage`), the timed ICMP read (`ReadWithTimeout`), and
the UDP probe sender (`NewUDPConn`, `SetTTL`, `SendEmptyPacket`).

Bytes are modelled as `List Nat` (each element a byte value); machine
integers as `Nat`. Effectful socket operations are embedded as pure
functions over an explicit environment describing the outcomes of the
underlying OS calls, returning the value handed to the caller together
with the observable side effects (datagrams sent, stderr lines, sockets
closed). The two library functions the decoder calls,
`icmp.ParseMessage(1, ·)` and `ipv4.ParseHeader` from golang.org/x/net,
are embedded below in namespace `xnet` from their upstream sources
(the GOOS default, i.e. Linux, byte-order path for the header fields).
-/

namespace xnet

/-- `ipv4.Header` (golang.org/x/net/ipv4/header.go): the fields
`ipv4.ParseHeader` populates. IP addresses are kept as their 4 raw bytes. -/
structure IPv4Header where
  version : Nat
  len : Nat
  tos : Nat
  totalLen : Nat
  id : Nat
  flags : Nat
  fragOff : Nat
  ttl : Nat
  protocol : Nat
  checksum : Nat
  src : List Nat
  dst : List Nat
  options : List Nat
deriving DecidableEq, Repr

/-- `ipv4.HeaderLen`: the length of an IPv4 header without options. -/
def HeaderLen : Nat := 20

/-- Embeds `ipv4.ParseHeader` (golang.org/x/net/ipv4/header.go): fails when
fewer than 20 bytes are given (`errHeaderTooShort`) or when the length
nibble claims more bytes than present (`errBufferTooShort`); otherwise
decodes the wire-format (big-endian, the non-BSD `runtime.GOOS` path)
fields. -/
def ParseHeader (b : List Nat) : Option IPv4Header :=
  if b.length < HeaderLen then none
  else
    let hdrlen := (b.getD 0 0 % 16) * 4
    if b.length < hdrlen then none
    else some
      { version := b.getD 0 0 / 16
        len := hdrlen
        tos := b.getD 1 0
        totalLen := b.getD 2 0 * 256 + b.getD 3 0
        id := b.getD 4 0 * 256 + b.getD 5 0
        flags := (b.getD 6 0 * 256 + b.getD 7 0) / 8192
        fragOff := (b.getD 6 0 * 256 + b.getD 7 0) % 8192
        ttl := b.getD 8 0
        protocol := b.getD 9 0
        checksum := b.getD 10 0 * 256 + b.getD 11 0
        src := (b.drop 12).take 4
        dst := (b.drop 16).take 4
        options := if HeaderLen < hdrlen then (b.drop 20).take (hdrlen - 20) else [] }

/-- The dynamic type of `icmp.Message.Type`, an interface implemented by
`ipv4.ICMPType` and `ipv6.ICMPType` (the only implementers in the
library). `icmp.ParseMessage(1, ·)` always produces `v4`; the decoder's
type assertion `m.Type.(ipv4.ICMPType)` fails exactly on `v6`. -/
inductive ICMPTypeTag where
  | v4 (t : Nat)
  | v6 (t : Nat)
deriving DecidableEq, Repr

/-- `icmp.MessageBody` variants produced by the proto-1 parse functions in
golang.org/x/net/icmp: `TimeExceeded`, `DstUnreach`, `ParamProb`, `Echo`,
the extended-echo bodies, and `RawBody` for every unrecognised type.
Only the payload data relevant to this repository is retained; the
extended-echo field decoding (types 42/43), on which nothing here
depends, is kept as the raw body bytes. -/
inductive MessageBody where
  | timeExceeded (data : List Nat)
  | dstUnreach (data : List Nat)
  | paramProb (pointer : Nat) (data : List Nat)
  | echo (id seq : Nat) (data : List Nat)
  | extended (data : List Nat)
  | raw (data : List Nat)
deriving DecidableEq, Repr

/-- `icmp.Message`: the parsed envelope. -/
structure ICMPMessage where
  typ : ICMPTypeTag
  code : Nat
  checksum : Nat
  body : MessageBody
deriving DecidableEq, Repr

/-- The adjusted RFC 4884 length attribute computed by `parseExtensions`
(golang.org/x/net/icmp/extension.go) over the bytes following the first
4 body octets: a length that leaves no room for an extension header is
replaced by the empirical 128, and `none` (`errNoExtension`, or a failed
extension validation, abstracted here to the version-nibble check of the
extension header) means no valid extension structure was found. -/
def parseExtensionsLen (rest : List Nat) (l : Nat) : Option Nat :=
  let l' := if rest.length < l + 4 then 128 else l
  if rest.length < l' + 4 then none
  else if rest.getD l' 0 / 16 = 2 then some l' else none

/-- Embeds `parseMultipartMessageBody` (golang.org/x/net/icmp/multipart.go)
for proto 1: a 4-byte body carries no data; otherwise the RFC 4884
length attribute is `4 * b[1]`, and when no valid extension structure is
found the whole remainder after the first 4 octets is the original
datagram data. -/
def parseMultipartMessageBody (b : List Nat) : List Nat :=
  if b.length = 4 then []
  else
    match parseExtensionsLen (b.drop 4) (4 * b.getD 1 0) with
    | none => b.drop 4
    | some l => (b.drop 4).take l

/-- The proto-1 body parse functions of golang.org/x/net/icmp, dispatched
by `parseFns` on the ICMPv4 type value: echo bodies (types 0 and 8,
`parseEcho`), the multipart bodies (3, 11, 12), the extended-echo bodies
(42, 43, kept raw), and `parseRawBody` for everything else. Each
recognised parse function rejects a body shorter than 4 bytes
(`errMessageTooShort`); `parseRawBody` never fails. -/
def parseBodyForType (t : Nat) (b : List Nat) : Option MessageBody :=
  if t = 0 ∨ t = 8 then
    if b.length < 4 then none
    else some (.echo (b.getD 0 0 * 256 + b.getD 1 0) (b.getD 2 0 * 256 + b.getD 3 0) (b.drop 4))
  else if t = 11 then
    if b.length < 4 then none
    else some (.timeExceeded (parseMultipartMessageBody b))
  else if t = 3 then
    if b.length < 4 then none
    else some (.dstUnreach (parseMultipartMessageBody b))
  else if t = 12 then
    if b.length < 4 then none
    else some (.paramProb (b.getD 0 0) (parseMultipartMessageBody b))
  else if t = 42 ∨ t = 43 then
    if b.length < 4 then none
    else some (.extended b)
  else some (.raw b)

/-- Embeds `icmp.ParseMessage(1, b)` (golang.org/x/net/icmp/message.go) for
the IPv4 ICMP protocol family: fewer than 4 bytes is
`errMessageTooShort`; otherwise the type is `ipv4.ICMPType(b[0])`, the
code `b[1]`, the checksum `b[2]<<8 | b[3]`, and the body is parsed from
`b[4:]` by the per-type parse function. -/
def ParseMessage (b : List Nat) : Option ICMPMessage :=
  if b.length < 4 then none
  else
    match parseBodyForType (b.getD 0 0) (b.drop 4) with
    | none => none
    | some body =>
        some { typ := .v4 (b.getD 0 0)
               code := b.getD 1 0
               checksum := b.getD 2 0 * 256 + b.getD 3 0
               body := body }

end xnet

/-- `ipv4.ICMPTypeEchoReply`. -/
def ICMPTypeEchoReply : Nat := 0

/-- `ipv4.ICMPTypeTimeExceeded`. -/
def ICMPTypeTimeExceeded : Nat := 11

/-- The distinct error values `ParseICMPMessage` and
`parseTimeExceededMessage` build with `fmt.Errorf`: the envelope-parse
wrap, the failed type assertion (naming `m.Type`), the body-variant
rejection, the embedded-header wrap, and the unexpected-type rejection
(naming the ICMPv4 type). -/
inductive DecodeError where
  | parseFailure
  | unexpectedTypeAssertion (t : xnet.ICMPTypeTag)
  | invalidTimeExceededBody
  | headerParseFailure
  | unexpectedMessageType (t : Nat)
deriving DecidableEq, Repr

/-- The `(ipv4.ICMPType, *ipv4.Header, error)` triple returned by
`ParseICMPMessage`: a `nil` header is `none`, a `nil` error is `none`. -/
structure DecodeResult where
  icmpType : Nat
  header : Option xnet.IPv4Header
  err : Option DecodeError
deriving DecidableEq, Repr

/-- Embeds `parseTimeExceededMessage` (icmp.go): asserts the body is the
`*icmp.TimeExceeded` variant, parses its `Data` as an IPv4 header, and
returns `ipv4.ICMPTypeTimeExceeded` in every branch. -/
def parseTimeExceededMessage (m : xnet.ICMPMessage) : DecodeResult :=
  match m.body with
  | .timeExceeded data =>
      match xnet.ParseHeader data with
      | none => ⟨ICMPTypeTimeExceeded, none, some .headerParseFailure⟩
      | some header => ⟨ICMPTypeTimeExceeded, some header, none⟩
  | _ => ⟨ICMPTypeTimeExceeded, none, some .invalidTimeExceededBody⟩

/-- The body of `ParseICMPMessage` (icmp.go) after the envelope parse,
split out so the type-assertion branch is stated over an arbitrary
parsed message: the assertion `m.Type.(ipv4.ICMPType)` failing returns
the zero `ipv4.ICMPType` and `nil` header; otherwise the switch
dispatches on the type value. -/
def classifyICMPMessage (m : xnet.ICMPMessage) : DecodeResult :=
  match m.typ with
  | .v6 t => ⟨0, none, some (.unexpectedTypeAssertion (.v6 t))⟩
  | .v4 t =>
      if t = ICMPTypeTimeExceeded then parseTimeExceededMessage m
      else if t = ICMPTypeEchoReply then ⟨t, none, none⟩
      else ⟨t, none, some (.unexpectedMessageType t)⟩

/-- Embeds `ParseICMPMessage` (icmp.go): parses the raw bytes with
`icmp.ParseMessage(1, msg)` — returning `(0, nil, wrapped error)` when
that fails — then classifies the message. -/
def ParseICMPMessage (msg : List Nat) : DecodeResult :=
  match xnet.ParseMessage msg with
  | none => ⟨0, none, some .parseFailure⟩
  | some m => classifyICMPMessage m

/-- `MaxPacketSize` (icmp.go): the maximum size of an ICMP packet
(Ethernet MTU). -/
def MaxPacketSize : Nat := 1500

/-- An error produced by an underlying OS or net-package call: `isTimeout`
is the value of `net.Error.Timeout()` on it (false for errors that are
not `net.Error`), `code` distinguishes concrete causes. -/
structure IOErr where
  isTimeout : Bool
  code : Nat
deriving DecidableEq, Repr

/-- The outcome the OS delivers to the `conn.ReadFrom(buffer)` call inside
`ReadWithTimeout`: either a datagram (source IP bytes and the full
datagram payload, of which the read copies at most the buffer's length)
or an error. -/
inductive ReadFromOutcome where
  | packet (src : List Nat) (datagram : List Nat)
  | fail (e : IOErr)
deriving DecidableEq, Repr

/-- The outcomes of the two OS calls a single `ReadWithTimeout` makes:
`SetReadDeadline` and `ReadFrom`. -/
structure ReadEnv where
  setDeadlineResult : Option IOErr
  readResult : ReadFromOutcome
deriving DecidableEq, Repr

/-- The distinct error values `ReadWithTimeout` builds: the deadline-set
wrap, the plain (non-wrapping) `"read timeout"` error for a
`net.Error` whose `Timeout()` is true, and the `"failed to read ICMP
message"` wrap carrying the underlying cause for any other read
failure. -/
inductive ReadError where
  | deadlineSetFailed (cause : IOErr)
  | readTimeout
  | receiveFailed (cause : IOErr)
deriving DecidableEq, Repr

/-- Embeds `ReadWithTimeout` (icmp.go): arms the deadline (propagating a
failure), reads into a `MaxPacketSize` buffer — so `ReadFrom` returns
`n = min(len(datagram), MaxPacketSize)` bytes — and on success returns
the source IP with `buffer[:n]`, i.e. the datagram truncated to
`MaxPacketSize`. A timeout read error becomes the distinguished
`readTimeout`; any other read error is wrapped in `receiveFailed`. -/
def ReadWithTimeout (env : ReadEnv) : Except ReadError (List Nat × List Nat) :=
  match env.setDeadlineResult with
  | some e => .error (.deadlineSetFailed e)
  | none =>
      match env.readResult with
      | .fail e => if e.isTimeout then .error .readTimeout else .error (.receiveFailed e)
      | .packet src datagram => .ok (src, datagram.take MaxPacketSize)

/-- `*net.UDPAddr`, kept as the 4 IP bytes and the port. -/
structure UDPAddr where
  ip : List Nat
  port : Nat
deriving DecidableEq, Repr

/-- A datagram handed to `WriteToUDP`: its destination and payload. -/
structure SentDatagram where
  dest : UDPAddr
  payload : List Nat
deriving DecidableEq, Repr

/-- The observable state of a `UDPConn`'s socket: the TTL socket option
currently set in the OS and the datagrams written so far. -/
structure UDPState where
  ttlOption : Option Nat
  sent : List SentDatagram
deriving DecidableEq, Repr

/-- The outcomes of the OS calls a single `SetTTL` makes: whether the
`syscallConn.Control` invocation itself fails, and whether the
`syscall.SetsockoptInt(fd, IPPROTO_IP, IP_TTL, ttl)` issued inside the
closure fails (the closure runs only when `Control` obtains the
descriptor). -/
structure TTLEnv where
  controlErr : Option IOErr
  setsockoptErr : Option IOErr
deriving DecidableEq, Repr

/-- Embeds `SetTTL` (udp.go): runs the setsockopt closure through
`syscallConn.Control` and returns `Control`'s own error. A setsockopt
failure inside the closure is only written to stderr — the second
component is the returned error, the third the stderr lines — and the
TTL option is applied exactly when the setsockopt succeeds. -/
def SetTTL (env : TTLEnv) (st : UDPState) (ttl : Nat) : UDPState × Option IOErr × List String :=
  match env.controlErr with
  | some e => (st, some e, [])
  | none =>
      match env.setsockoptErr with
      | some _ => (st, none, ["failed to set TTL"])
      | none => ({ st with ttlOption := some ttl }, none, [])

/-- Embeds `SendEmptyPacket` (udp.go): `WriteToUDP([]byte{}, addr)` — on
success the zero-length datagram addressed to `addr` is transmitted; a
write failure is wrapped and nothing is recorded as sent. -/
def SendEmptyPacket (writeErr : Option IOErr) (st : UDPState) (addr : UDPAddr) :
    UDPState × Option IOErr :=
  match writeErr with
  | some e => (st, some e)
  | none => ({ st with sent := st.sent ++ [⟨addr, []⟩] }, none)

deriving instance DecidableEq for Except

/-- The outcomes of the three calls `NewUDPConn` makes:
`net.ResolveUDPAddr("udp4", localAddr)`, `net.ListenUDP("udp4", addr)`,
and `conn.SyscallConn()`. -/
structure NewConnEnv where
  resolveResult : Except IOErr UDPAddr
  listenErr : Option IOErr
  syscallConnErr : Option IOErr
deriving DecidableEq, Repr

/-- The distinct wrapped errors `NewUDPConn` returns. -/
inductive NewConnError where
  | resolveFailed (cause : IOErr)
  | listenFailed (cause : IOErr)
  | syscallConnFailed (cause : IOErr)
deriving DecidableEq, Repr

/-- What a `NewUDPConn` call leaves behind: the value returned to the
caller (the bound address standing for the connection) and whether a
socket was bound and whether `Close` was called on it. -/
structure NewConnOutcome where
  result : Except NewConnError UDPAddr
  socketBound : Bool
  socketClosed : Bool
deriving DecidableEq, Repr

/-- Embeds `NewUDPConn` (udp.go): resolves the local address, binds the
UDP socket, then obtains the syscall control interface; when that last
step fails it calls `conn.Close()` on the bound socket before returning
the wrapped error. -/
def NewUDPConn (env : NewConnEnv) : NewConnOutcome :=
  match env.resolveResult with
  | .error e => ⟨.error (.resolveFailed e), false, false⟩
  | .ok addr =>
      match env.listenErr with
      | some e => ⟨.error (.listenFailed e), false, false⟩
      | none =>
          match env.syscallConnErr with
          | some e => ⟨.error (.syscallConnFailed e), true, true⟩
          | none => ⟨.ok addr, true, false⟩

/-- A valid 20-byte IPv4 header on the wire: version 4, header length 5
words, total length 84, id 0x1234, flags DF, TTL 64, protocol UDP,
checksum 0xabcd, source 10.0.0.1, destination 8.8.8.8. -/
def sampleIPHeaderBytes : List Nat :=
  [69, 0, 0, 84, 18, 52, 64, 0, 64, 17, 171, 205, 10, 0, 0, 1, 8, 8, 8, 8]

/-- A captured Time-Exceeded ICMP message: type 11, code 0, zero checksum,
4 unused body octets, then the embedded original IPv4 header. -/
def sampleTimeExceededMsg : List Nat :=
  [11, 0, 0, 0, 0, 0, 0, 0] ++ sampleIPHeaderBytes

/-- The header `xnet.ParseHeader` decodes from `sampleIPHeaderBytes`. -/
def sampleParsedHeader : xnet.IPv4Header :=
  { version := 4, len := 20, tos := 0, totalLen := 84, id := 4660, flags := 2,
    fragOff := 0, ttl := 64, protocol := 17, checksum := 43981,
    src := [10, 0, 0, 1], dst := [8, 8, 8, 8], options := [] }

/-- The envelope `xnet.ParseMessage` produces for `sampleTimeExceededMsg`. -/
def sampleTimeExceededEnvelope : xnet.ICMPMessage :=
  { typ := .v4 11, code := 0, checksum := 0, body := .timeExceeded sampleIPHeaderBytes }

/-- A captured Echo-Reply ICMP message: type 0, code 0, zero checksum,
identifier 0x0102, sequence 0x0304. -/
def sampleEchoReplyMsg : List Nat := [0, 0, 0, 0, 1, 2, 3, 4]

/-- A captured Redirect ICMP message (type 5). -/
def sampleRedirectMsg : List Nat := [5, 0, 0, 0, 1, 2, 3]

/-- Fields of a successfully decoded IPv4 header, read back from the raw
bytes it was parsed from. -/
lemma ParseHeader_fields (data : List Nat) (h : xnet.IPv4Header)
    (hh : xnet.ParseHeader data = some h) :
    h.ttl = data.getD 8 0 ∧ h.version = data.getD 0 0 / 16 ∧
    h.protocol = data.getD 9 0 ∧ h.tos = data.getD 1 0 ∧
    h.totalLen = data.getD 2 0 * 256 + data.getD 3 0 ∧
    h.checksum = data.getD 10 0 * 256 + data.getD 11 0 ∧
    h.src = (data.drop 12).take 4 ∧ h.dst = (data.drop 16).take 4 := by
  simp only [xnet.ParseHeader] at hh
  split at hh
  · exact Option.noConfusion hh
  · split at hh
    · exact Option.noConfusion hh
    · injection hh with hh
      subst hh
      exact ⟨rfl, rfl, rfl, rfl, rfl, rfl, rfl, rfl⟩

/-- `classifyICMPMessage` yields a header exactly on the Time-Exceeded
path with a well-formed embedded header. -/
lemma classify_header_isSome (m : xnet.ICMPMessage) :
    (classifyICMPMessage m).header.isSome ↔
      ∃ data h, m.typ = .v4 ICMPTypeTimeExceeded ∧ m.body = .timeExceeded data ∧
        xnet.ParseHeader data = some h := by
  cases hty : m.typ with
  | v6 t => simp [classifyICMPMessage, hty]
  | v4 t =>
    by_cases h11 : t = ICMPTypeTimeExceeded
    · subst h11
      cases hb : m.body with
      | timeExceeded data =>
        cases hph : xnet.ParseHeader data with
        | none => simp [classifyICMPMessage, hty, parseTimeExceededMessage, hb, hph]
        | some hh => simp [classifyICMPMessage, hty, parseTimeExceededMessage, hb, hph]
      | dstUnreach data => simp [classifyICMPMessage, hty, parseTimeExceededMessage, hb]
      | paramProb p data => simp [classifyICMPMessage, hty, parseTimeExceededMessage, hb]
      | echo i s data => simp [classifyICMPMessage, hty, parseTimeExceededMessage, hb]
      | extended data => simp [classifyICMPMessage, hty, parseTimeExceededMessage, hb]
      | raw data => simp [classifyICMPMessage, hty, parseTimeExceededMessage, hb]
    · by_cases h0 : t = ICMPTypeEchoReply
      · simp [classifyICMPMessage, hty, h11, h0, ICMPTypeEchoReply, ICMPTypeTimeExceeded]
      · simp [classifyICMPMessage, hty, h11, h0]

/-- C4: whenever the envelope parses to an IPv4 ICMP type that is neither
Time-Exceeded nor Echo-Reply, `ParseICMPMessage` returns that type, a
nil header, and the unexpected-type error naming the type. -/
theorem C4_unexpected_type_rejected (msg : List Nat) (m : xnet.ICMPMessage) (t : Nat)
    (hp : xnet.ParseMessage msg = some m) (ht : m.typ = .v4 t)
    (hte : t ≠ ICMPTypeTimeExceeded) (her : t ≠ ICMPTypeEchoReply) :
    ParseICMPMessage msg = ⟨t, none, some (.unexpectedMessageType t)⟩ := by
  simp [ParseICMPMessage, hp, classifyICMPMessage, ht, hte, her]

/-- C4 witness: a Redirect message (type 5) is rejected with the
unexpected-type error, nil header, type tag 5. -/
theorem C4_witness :
    ParseICMPMessage sampleRedirectMsg =
      ⟨5, none, some (.unexpectedMessageType 5)⟩ :=
  C4_unexpected_type_rejected sampleRedirectMsg
    { typ := .v4 5, code := 0, checksum := 0, body := .raw [1, 2, 3] } 5
    (by decide) (by decide) (by decide) (by decide)

/-- C6: whenever the envelope parses to the Echo-Reply type,
`ParseICMPMessage` returns (EchoReply, nil header, nil error),
whatever the rest of the message holds. -/
theorem C6_echo_reply_no_header_no_error (msg : List Nat) (m : xnet.ICMPMessage)
    (hp : xnet.ParseMessage msg = some m) (ht : m.typ = .v4 ICMPTypeEchoReply) :
    ParseICMPMessage msg = ⟨ICMPTypeEchoReply, none, none⟩ := by
  simp [ParseICMPMessage, hp, classifyICMPMessage, ht, ICMPTypeEchoReply, ICMPTypeTimeExceeded]

/-- C6 witness: a concrete Echo-Reply message decodes to
(EchoReply, nil header, nil error). -/
theorem C6_witness :
    ParseICMPMessage sampleEchoReplyMsg = ⟨ICMPTypeEchoReply, none, none⟩ :=
  C6_echo_reply_no_header_no_error sampleEchoReplyMsg
    { typ := .v4 0, code := 0, checksum := 0, body := .echo 258 772 [] }
    (by decide) (by decide)

/-- C9: when the parsed envelope's type tag is not an IPv4 ICMP type (the
type assertion fails), the classification returns the zero type tag, a
nil header, and the assertion error — not the message's actual type. -/
theorem C9_failed_type_assertion_zero_tag (m : xnet.ICMPMessage) (t : Nat)
    (ht : m.typ = .v6 t) :
    classifyICMPMessage m = ⟨0, none, some (.unexpectedTypeAssertion (.v6 t))⟩ := by
  simp [classifyICMPMessage, ht]

/-- C9 witness: a message carrying an IPv6 type tag classifies to the zero
tag, nil header, and the assertion error. -/
theorem C9_witness :
    classifyICMPMessage { typ := .v6 3, code := 0, checksum := 0, body := .raw [] } =
      ⟨0, none, some (.unexpectedTypeAssertion (.v6 3))⟩ :=
  C9_failed_type_assertion_zero_tag
    { typ := .v6 3, code := 0, checksum := 0, body := .raw [] } 3 (by decide)

/-- C5: a deadline-expiry read failure yields the distinguished plain
timeout error, any other read failure yields the receive error wrapping
the underlying cause, and the two error values are never equal. -/
theorem C5_timeout_error_distinguished (env : ReadEnv) (e : IOErr)
    (hd : env.setDeadlineResult = none) (hr : env.readResult = .fail e) :
    (e.isTimeout = true → ReadWithTimeout env = .error .readTimeout) ∧
    (e.isTimeout = false → ReadWithTimeout env = .error (.receiveFailed e)) ∧
    (∀ cause : IOErr, (ReadError.readTimeout : ReadError) ≠ .receiveFailed cause) := by
  refine ⟨?_, ?_, ?_⟩
  · intro hto; simp [ReadWithTimeout, hd, hr, hto]
  · intro hto; simp [ReadWithTimeout, hd, hr, hto]
  · intro cause hne; cases hne

/-- C5 witness: a concrete timed-out read returns the timeout error and a
concrete failed non-timeout read returns the wrapping receive error. -/
theorem C5_witness :
    ReadWithTimeout ⟨none, .fail ⟨true, 7⟩⟩ = .error .readTimeout ∧
    ReadWithTimeout ⟨none, .fail ⟨false, 9⟩⟩ = .error (.receiveFailed ⟨false, 9⟩) :=
  ⟨(C5_timeout_error_distinguished ⟨none, .fail ⟨true, 7⟩⟩ ⟨true, 7⟩ rfl rfl).1 rfl,
   (C5_timeout_error_distinguished ⟨none, .fail ⟨false, 9⟩⟩ ⟨false, 9⟩ rfl rfl).2.1 rfl⟩

/-- C8: a successful `ReadWithTimeout` returns the received datagram
truncated at `MaxPacketSize`: its length never exceeds 1500, a datagram
that fits is returned whole, and a larger one is truncated rather than
rejected. -/
theorem C8_read_returns_truncated_bytes (env : ReadEnv) (src datagram : List Nat)
    (hd : env.setDeadlineResult = none) (hr : env.readResult = .packet src datagram) :
    ReadWithTimeout env = .ok (src, datagram.take MaxPacketSize) ∧
    (datagram.take MaxPacketSize).length ≤ MaxPacketSize ∧
    (datagram.length ≤ MaxPacketSize → datagram.take MaxPacketSize = datagram) ∧
    MaxPacketSize = 1500 := by
  refine ⟨?_, ?_, ?_, rfl⟩
  · simp [ReadWithTimeout, hd, hr]
  · simp
  · intro hle; exact List.take_of_length_le hle

/-- C8 witness: a concrete 3-byte datagram is returned whole, within the
1500-byte bound. -/
theorem C8_witness :
    ReadWithTimeout ⟨none, .packet [127, 0, 0, 1] [1, 2, 3]⟩ =
      .ok ([127, 0, 0, 1], ([1, 2, 3] : List Nat).take MaxPacketSize) ∧
    (([1, 2, 3] : List Nat).take MaxPacketSize).length ≤ MaxPacketSize ∧
    (([1, 2, 3] : List Nat).length ≤ MaxPacketSize →
      ([1, 2, 3] : List Nat).take MaxPacketSize = [1, 2, 3]) ∧
    MaxPacketSize = 1500 :=
  C8_read_returns_truncated_bytes ⟨none, .packet [127, 0, 0, 1] [1, 2, 3]⟩
    [127, 0, 0, 1] [1, 2, 3] rfl rfl

/-- C2 (refuting the claim on the code): when `Control` itself succeeds
but the `SetsockoptInt` syscall inside the closure fails, `SetTTL`
writes the failure to stderr and returns a nil error to the caller —
the syscall failure is swallowed, for every TTL value. -/
theorem C2_setsockopt_failure_swallowed (st : UDPState) (ttl : Nat) (e : IOErr) :
    (SetTTL ⟨none, some e⟩ st ttl).2.1 = none ∧
    (SetTTL ⟨none, some e⟩ st ttl).2.2 = ["failed to set TTL"] :=
  ⟨rfl, rfl⟩

/-- C7: for every valid TTL value 1–255, any outcome of the set-TTL
syscalls, and every destination, `SetTTL` followed by `SendEmptyPacket`
transmits exactly one datagram whose destination is the given address
and whose payload is empty (length zero). -/
theorem C7_probe_destination_and_payload (env : TTLEnv) (st : UDPState) (ttl : Nat)
    (addr : UDPAddr) (h1 : 1 ≤ ttl) (h2 : ttl ≤ 255) :
    (SendEmptyPacket none (SetTTL env st ttl).1 addr).1.sent =
      st.sent ++ [{ dest := addr, payload := [] }] ∧
    ({ dest := addr, payload := [] } : SentDatagram).payload.length = 0 := by
  obtain ⟨ce, se⟩ := env
  cases ce <;> cases se <;> simp [SetTTL, SendEmptyPacket]

/-- C7 witness: TTL 64 then a probe to 8.8.8.8:33434 from a fresh socket
sends the single empty datagram to that address. -/
theorem C7_witness :
    (SendEmptyPacket none
        (SetTTL ⟨none, none⟩ { ttlOption := none, sent := [] } 64).1
        { ip := [8, 8, 8, 8], port := 33434 }).1.sent =
      ([] : List SentDatagram) ++
        [{ dest := { ip := [8, 8, 8, 8], port := 33434 }, payload := [] }] ∧
    ({ dest := { ip := [8, 8, 8, 8], port := 33434 }, payload := [] } : SentDatagram).payload.length = 0 :=
  C7_probe_destination_and_payload ⟨none, none⟩ { ttlOption := none, sent := [] } 64
    { ip := [8, 8, 8, 8], port := 33434 } (by decide) (by decide)

/-- C10: when resolving and binding succeed but obtaining the syscall
control interface fails, `NewUDPConn` closes the socket it bound and
returns the wrapped error: no socket is leaked on that path. -/
theorem C10_no_leak_on_syscallconn_failure (env : NewConnEnv) (addr : UDPAddr) (e : IOErr)
    (hr : env.resolveResult = .ok addr) (hl : env.listenErr = none)
    (hs : env.syscallConnErr = some e) :
    NewUDPConn env = ⟨.error (.syscallConnFailed e), true, true⟩ := by
  simp [NewUDPConn, hr, hl, hs]

/-- C10 witness: a concrete environment where only `SyscallConn` fails
yields the error with the socket bound and closed. -/
theorem C10_witness :
    NewUDPConn ⟨.ok { ip := [0, 0, 0, 0], port := 0 }, none, some ⟨false, 22⟩⟩ =
      ⟨.error (.syscallConnFailed ⟨false, 22⟩), true, true⟩ :=
  C10_no_leak_on_syscallconn_failure
    ⟨.ok { ip := [0, 0, 0, 0], port := 0 }, none, some ⟨false, 22⟩⟩
    { ip := [0, 0, 0, 0], port := 0 } ⟨false, 22⟩ rfl rfl rfl

/-- C3: (a) an envelope that parses to a Time-Exceeded message with a
Time-Exceeded body whose embedded data is a valid IPv4 header decodes
to (TimeExceeded, that header — whose fields equal the embedded
bytes — no error); (b) a Time-Exceeded type whose body is not the
Time-Exceeded variant is rejected with the body-type error; (c) a
malformed embedded header is rejected with the header-parse error. -/
theorem C3_time_exceeded_decoding :
    (∀ (msg : List Nat) (m : xnet.ICMPMessage) (data : List Nat) (h : xnet.IPv4Header),
      xnet.ParseMessage msg = some m → m.typ = .v4 ICMPTypeTimeExceeded →
      m.body = .timeExceeded data → xnet.ParseHeader data = some h →
      ParseICMPMessage msg = ⟨ICMPTypeTimeExceeded, some h, none⟩ ∧
      h.ttl = data.getD 8 0 ∧ h.version = data.getD 0 0 / 16 ∧
      h.protocol = data.getD 9 0 ∧ h.src = (data.drop 12).take 4 ∧
      h.dst = (data.drop 16).take 4) ∧
    (∀ m : xnet.ICMPMessage, m.typ = .v4 ICMPTypeTimeExceeded →
      (∀ data, m.body ≠ .timeExceeded data) →
      classifyICMPMessage m = ⟨ICMPTypeTimeExceeded, none, some .invalidTimeExceededBody⟩) ∧
    (∀ (msg : List Nat) (m : xnet.ICMPMessage) (data : List Nat),
      xnet.ParseMessage msg = some m → m.typ = .v4 ICMPTypeTimeExceeded →
      m.body = .timeExceeded data → xnet.ParseHeader data = none →
      ParseICMPMessage msg = ⟨ICMPTypeTimeExceeded, none, some .headerParseFailure⟩) := by
  refine ⟨?_, ?_, ?_⟩
  · intro msg m data h hp hty hb hph
    obtain ⟨f1, f2, f3, f4, _, _, f7, f8⟩ := ParseHeader_fields data h hph
    exact ⟨by simp [ParseICMPMessage, hp, classifyICMPMessage, hty, parseTimeExceededMessage,
      hb, hph], f1, f2, f3, f7, f8⟩
  · intro m hty hnb
    cases hb : m.body with
    | timeExceeded data => exact absurd hb (hnb data)
    | dstUnreach data => simp [classifyICMPMessage, hty, parseTimeExceededMessage, hb]
    | paramProb p data => simp [classifyICMPMessage, hty, parseTimeExceededMessage, hb]
    | echo i s data => simp [classifyICMPMessage, hty, parseTimeExceededMessage, hb]
    | extended data => simp [classifyICMPMessage, hty, parseTimeExceededMessage, hb]
    | raw data => simp [classifyICMPMessage, hty, parseTimeExceededMessage, hb]
  · intro msg m data hp hty hb hph
    simp [ParseICMPMessage, hp, classifyICMPMessage, hty, parseTimeExceededMessage, hb, hph]

/-- C3 witness: the sample captured Time-Exceeded message decodes to
(TimeExceeded, the header of its embedded 20 bytes, no error), with the
TTL field read from byte 8 of the embedded header. -/
theorem C3_witness :
    ParseICMPMessage sampleTimeExceededMsg =
      ⟨ICMPTypeTimeExceeded, some sampleParsedHeader, none⟩ ∧
    sampleParsedHeader.ttl = sampleIPHeaderBytes.getD 8 0 ∧
    sampleParsedHeader.version = sampleIPHeaderBytes.getD 0 0 / 16 ∧
    sampleParsedHeader.protocol = sampleIPHeaderBytes.getD 9 0 ∧
    sampleParsedHeader.src = (sampleIPHeaderBytes.drop 12).take 4 ∧
    sampleParsedHeader.dst = (sampleIPHeaderBytes.drop 16).take 4 :=
  C3_time_exceeded_decoding.1 sampleTimeExceededMsg sampleTimeExceededEnvelope
    sampleIPHeaderBytes sampleParsedHeader (by decide) (by decide) (by decide) (by decide)

/-- C1: the embedded header is present in the decoded result exactly when
the envelope parses to a Time-Exceeded message whose embedded data is a
valid IPv4 header; an Echo-Reply decodes with no header and no error;
every other parsed IPv4 type decodes with an error, never a silent
empty success. -/
theorem C1_header_presence_invariant (msg : List Nat) :
    ((ParseICMPMessage msg).header.isSome ↔
      ∃ (m : xnet.ICMPMessage) (data : List Nat) (h : xnet.IPv4Header),
        xnet.ParseMessage msg = some m ∧ m.typ = .v4 ICMPTypeTimeExceeded ∧
        m.body = .timeExceeded data ∧ xnet.ParseHeader data = some h) ∧
    (∀ m : xnet.ICMPMessage, xnet.ParseMessage msg = some m →
      m.typ = .v4 ICMPTypeEchoReply →
      (ParseICMPMessage msg).header = none ∧ (ParseICMPMessage msg).err = none) ∧
    (∀ (m : xnet.ICMPMessage) (t : Nat), xnet.ParseMessage msg = some m →
      m.typ = .v4 t → t ≠ ICMPTypeTimeExceeded → t ≠ ICMPTypeEchoReply →
      (ParseICMPMessage msg).err.isSome) := by
  refine ⟨?_, ?_, ?_⟩
  · cases hp : xnet.ParseMessage msg with
    | none => simp [ParseICMPMessage, hp]
    | some m =>
      have hc : ParseICMPMessage msg = classifyICMPMessage m := by
        simp [ParseICMPMessage, hp]
      rw [hc, classify_header_isSome]
      constructor
      · rintro ⟨data, h, hty, hb, hph⟩
        exact ⟨m, data, h, rfl, hty, hb, hph⟩
      · rintro ⟨m', data, h, hp', hty, hb, hph⟩
        have hm : m' = m := (Option.some.inj hp').symm
        subst hm
        exact ⟨data, h, hty, hb, hph⟩
  · intro m hp hty
    constructor <;>
      simp [ParseICMPMessage, hp, classifyICMPMessage, hty,
        ICMPTypeEchoReply, ICMPTypeTimeExceeded]
  · intro m t hp hty hte her
    simp [ParseICMPMessage, hp, classifyICMPMessage, hty, hte, her]

/-- C1 witness: the sample Time-Exceeded message has a present header, and
the sample Echo-Reply message has no header and no error. -/
theorem C1_witness :
    (ParseICMPMessage sampleTimeExceededMsg).header.isSome ∧
    ((ParseICMPMessage sampleEchoReplyMsg).header = none ∧
      (ParseICMPMessage sampleEchoReplyMsg).err = none) :=
  ⟨(C1_header_presence_invariant sampleTimeExceededMsg).1.mpr
      ⟨sampleTimeExceededEnvelope, sampleIPHeaderBytes, sampleParsedHeader,
        by decide, by decide, by decide, by decide⟩,
    (C1_header_presence_invariant sampleEchoReplyMsg).2.1
      { typ := .v4 0, code := 0, checksum := 0, body := .echo 258 772 [] }
      (by decide) (by decide)⟩
